import Mathlib

/-!
# XCM Lite: submission-to-relay pipeline, shallow embedding

Shallow embedding of the cross-chain message verifier ("XCM Lite")
repository: the domain data model and validation (`src/domain/message.rs`,
`src/domain/errors.rs`), the shared state store (`src/state.rs`), the
signature-verification boundary (`src/crypto.rs`), the execution engine
(`src/execution/mod.rs`), and the message processor / relay worker
(`src/processor/mod.rs`).

Modelling conventions:
* Rust `u32` / `u64` / `u128` become `Nat`; the only arithmetic the
  pipeline performs on them is `u128::saturating_add`, embedded explicitly
  with a cap at `2 ^ 128 - 1`.
* Rust `HashMap` becomes an association list with update-or-insert
  (`mapInsert`) and first-match lookup (`mapLookup`); the claims only
  observe maps through lookups, for which this is faithful.
* The ed25519 primitive behind `KeyRegistry::verify_signature` is an
  external collaborator (spec section 1); it is abstracted by a boolean
  oracle `verify_ok`, while the registry lookup and the 64-byte signature
  length check are embedded from `src/crypto.rs` as written.
* Lock acquisition (`RwLock::read` / `write`) is embedded as always
  succeeding; lock poisoning arises only from a panic in another thread,
  which has no counterpart in a sequential functional embedding.
* `Uuid::new_v4()` is a fresh-identifier oracle, passed explicitly as an
  argument wherever the source calls it.
* `tokio::sync::mpsc` send is embedded by a `channel_open` flag plus the
  list of items emitted to the queue.
-/

namespace XcmLite

/-! ## Association-list maps (embedding of `HashMap`) -/

/-- First-match lookup, the embedding of `HashMap::get`. -/
def mapLookup {κ α : Type} [DecidableEq κ] (k : κ) : List (κ × α) → Option α
  | [] => none
  | (k', v) :: t => if k' = k then some v else mapLookup k t

/-- Update-or-insert, the embedding of `HashMap::insert` (and of
`get_mut` followed by a field update). -/
def mapInsert {κ α : Type} [DecidableEq κ] (k : κ) (v : α) : List (κ × α) → List (κ × α)
  | [] => [(k, v)]
  | (k', v') :: t => if k' = k then (k, v) :: t else (k', v') :: mapInsert k v t

/-! ## Error taxonomy (`src/domain/errors.rs`) -/

/-- High-level error codes exposed by the API (`XcmErrorCode`). -/
inductive XcmErrorCode
  | invalidPayload
  | invalidSignature
  | versionMismatch
  | unsupportedInstruction
deriving DecidableEq, Repr

/-- Validation error containing a code and human-readable detail
(`MessageValidationError`). -/
structure MessageValidationError where
  code : XcmErrorCode
  detail : String
deriving DecidableEq, Repr

/-- `MessageValidationError::invalid_payload`. -/
def MessageValidationError.invalid_payload (detail : String) : MessageValidationError :=
  ⟨XcmErrorCode.invalidPayload, detail⟩

/-- The error code carried by a validation result, if any. -/
def errCode : Except MessageValidationError Unit → Option XcmErrorCode
  | .ok _ => none
  | .error e => some e.code

/-! ## Domain model (`src/domain/message.rs`) -/

/-- Rust `str::trim`, embedded at the character-list level (the built-in
`String.trim` does not reduce in the kernel).  Trims whitespace from both
ends. -/
def strTrim (s : String) : String :=
  String.mk (((s.data.dropWhile Char.isWhitespace).reverse.dropWhile
    Char.isWhitespace).reverse)

/-- Rust `str::to_uppercase`, embedded at the character-list level (the
configured version tokens are ASCII). -/
def strToUpper (s : String) : String :=
  String.mk (s.data.map Char.toUpper)

/-- Supported XCM versions for the simulation (`XcmVersion`). -/
inductive XcmVersion
  | v3
  | v4
deriving DecidableEq, Repr

/-- `Display for XcmVersion`. -/
def XcmVersion.display : XcmVersion → String
  | .v3 => "V3"
  | .v4 => "V4"

/-- `XcmVersion::is_supported`: case-insensitive comparison of the
configured version token. -/
def XcmVersion.is_supported (v : XcmVersion) (configured : String) : Bool :=
  let normalized := strToUpper (strTrim configured)
  match v with
  | .v3 => normalized == "V3"
  | .v4 => normalized == "V4"

/-- `TransferReserveAsset` instruction payload.  `amount` is a `u128`. -/
structure TransferReserveAsset where
  asset : String
  amount : Nat
  beneficiary : String
deriving DecidableEq, Repr

/-- `Transact` instruction payload.  `weight` is an optional `u64`. -/
structure Transact where
  call_data : String
  weight : Option Nat
deriving DecidableEq, Repr

/-- `QueryResponse` instruction payload. -/
structure QueryResponse where
  query_id : String
  response : String
deriving DecidableEq, Repr

/-- Supported instruction set for the MVP (`Instruction`). -/
inductive Instruction
  | transferReserveAsset (data : TransferReserveAsset)
  | transact (data : Transact)
  | queryResponse (data : QueryResponse)
deriving DecidableEq, Repr

/-- `TransferReserveAsset::validate`. -/
def TransferReserveAsset.validate (d : TransferReserveAsset) :
    Except MessageValidationError Unit :=
  if (strTrim d.asset).isEmpty then
    .error (MessageValidationError.invalid_payload "asset identifier must be provided")
  else if d.amount = 0 then
    .error (MessageValidationError.invalid_payload "transfer amount must be greater than zero")
  else if (strTrim d.beneficiary).isEmpty then
    .error (MessageValidationError.invalid_payload "beneficiary must be provided")
  else .ok ()

/-- `Transact::validate`. -/
def Transact.validate (d : Transact) : Except MessageValidationError Unit :=
  if (strTrim d.call_data).isEmpty then
    .error (MessageValidationError.invalid_payload "call_data must be provided")
  else .ok ()

/-- `QueryResponse::validate`. -/
def QueryResponse.validate (d : QueryResponse) : Except MessageValidationError Unit :=
  if (strTrim d.query_id).isEmpty then
    .error (MessageValidationError.invalid_payload "query_id must be provided")
  else if (strTrim d.response).isEmpty then
    .error (MessageValidationError.invalid_payload "response must be provided")
  else .ok ()

/-- `Instruction::validate`: dispatch to the per-variant check. -/
def Instruction.validate : Instruction → Except MessageValidationError Unit
  | .transferReserveAsset d => d.validate
  | .transact d => d.validate
  | .queryResponse d => d.validate

/-- Envelope representing an incoming message submission
(`MessageEnvelope`).  Chain ids are `u32`. -/
structure MessageEnvelope where
  message_id : Option String
  sender_para : Nat
  dest_para : Nat
  xcm_version : XcmVersion
  instructions : List Instruction
  signature : Option String
deriving DecidableEq, Repr

/-- The `for (idx, instruction) in self.instructions.iter().enumerate()`
loop of `MessageEnvelope::validate`, indexing from `idx`. -/
def validateInstructionsFrom (idx : Nat) :
    List Instruction → Except MessageValidationError Unit
  | [] => .ok ()
  | i :: rest =>
    match i.validate with
    | .error e =>
      .error (MessageValidationError.invalid_payload
        ("instruction " ++ toString idx ++ " invalid: " ++ e.detail))
    | .ok _ => validateInstructionsFrom (idx + 1) rest

/-- `MessageEnvelope::validate`: the checks in source order (zero ids,
equal ids, empty instruction list, version, per-instruction). -/
def MessageEnvelope.validate (env : MessageEnvelope) (configured_version : String) :
    Except MessageValidationError Unit :=
  if env.sender_para = 0 ∨ env.dest_para = 0 then
    .error (MessageValidationError.invalid_payload
      "sender and destination parachain IDs must be non-zero")
  else if env.sender_para = env.dest_para then
    .error (MessageValidationError.invalid_payload
      "sender and destination parachain IDs must differ")
  else if env.instructions.isEmpty then
    .error (MessageValidationError.invalid_payload
      "at least one instruction is required")
  else if env.xcm_version.is_supported configured_version then
    validateInstructionsFrom 0 env.instructions
  else
    .error ⟨XcmErrorCode.versionMismatch,
      "message version " ++ env.xcm_version.display
        ++ " mismatches configured version " ++ configured_version⟩

/-! ## Shared state store (`src/state.rs`) -/

/-- High-level message processing status values (`MessageStatus`). -/
inductive MessageStatus
  | pending
  | relayed
  | executed (outcome : Option String)
  | failed (error : String)
deriving DecidableEq, Repr

/-- Record tracking the lifecycle of a submitted XCM message
(`MessageRecord`). -/
structure MessageRecord where
  status : MessageStatus
  hops : List Nat
deriving DecidableEq, Repr

/-- State associated with a single parachain (`ParachainState`):
`balances` maps beneficiary strings to `u128` amounts, `logs` is
append-only. -/
structure ParachainState where
  balances : List (String × Nat)
  logs : List String
deriving DecidableEq, Repr

/-- Shared, concurrent state for the XCM Lite service (`ServiceState`);
the two `Arc<RwLock<HashMap>>` maps, with lock acquisition embedded as
always succeeding. -/
structure ServiceState where
  parachains : List (Nat × ParachainState)
  messages : List (String × MessageRecord)
deriving DecidableEq, Repr

/-! ## Signature verification boundary (`src/crypto.rs`) -/

/-- Errors produced by the cryptography subsystem (`CryptoError`).  The
`InvalidKey` variant concerns startup key construction, which the
pipeline never reaches. -/
inductive CryptoError
  | unknownParachain (para_id : Nat)
  | invalidSignature (detail : String)
deriving DecidableEq, Repr

/-- Holder for keypairs keyed by parachain id (`KeyRegistry`).  `keys`
lists the registered parachain ids; `verify_ok` abstracts the external
ed25519 `VerifyingKey::verify` primitive over (parachain id, message
bytes, signature bytes). -/
structure KeyRegistry where
  keys : List Nat
  verify_ok : Nat → List Nat → List Nat → Bool

/-- `KeyRegistry::verify_signature`: registry lookup, then the 64-byte
length check of `signature_from_bytes`, then the ed25519 verification. -/
def KeyRegistry.verify_signature (reg : KeyRegistry) (para_id : Nat)
    (message signature_bytes : List Nat) : Except CryptoError Unit :=
  if reg.keys.contains para_id then
    if signature_bytes.length = 64 then
      if reg.verify_ok para_id message signature_bytes then .ok ()
      else .error (.invalidSignature "signature verification failed")
    else
      .error (.invalidSignature
        ("expected 64-byte signature, received "
          ++ toString signature_bytes.length ++ " bytes"))
  else .error (.unknownParachain para_id)

/-! ## Execution engine (`src/execution/mod.rs`) -/

/-- `u128::MAX`, the saturation bound of `saturating_add`. -/
def U128_MAX : Nat := 2 ^ 128 - 1

/-- `u128::saturating_add` on in-range operands. -/
def satAdd (a b : Nat) : Nat := min (a + b) U128_MAX

/-- Outcome details produced by the execution engine
(`ExecutionOutcome`). -/
structure ExecutionOutcome where
  logs : List String
deriving DecidableEq, Repr

/-- `ExecutionOutcome::summary`. -/
def ExecutionOutcome.summary (o : ExecutionOutcome) : Option String :=
  if o.logs.isEmpty then none
  else some (toString o.logs.length ++ " instructions applied")

/-- Execution errors surfaced to the processor (`ExecutionError`). -/
inductive ExecutionError
  | unknownParachain (para_id : Nat)
  | statePoisoned
deriving DecidableEq, Repr

/-- The `thiserror` display strings of `ExecutionError`. -/
def ExecutionError.message : ExecutionError → String
  | .unknownParachain para_id =>
    "destination parachain " ++ toString para_id ++ " not registered"
  | .statePoisoned => "state lock poisoned"

/-- `apply_transfer`: beneficiary balance saturating-add, plus a ledger
log line. -/
def apply_transfer (state : ParachainState) (transfer : TransferReserveAsset) :
    ParachainState :=
  let entry := (mapLookup transfer.beneficiary state.balances).getD 0
  let entry := satAdd entry transfer.amount
  { balances := mapInsert transfer.beneficiary entry state.balances,
    logs := state.logs
      ++ ["Balance updated: " ++ transfer.beneficiary ++ " => " ++ toString entry] }

/-- `apply_transact`: no balance effect, one ledger log line.
`call_data.len()` is the Rust byte length, i.e. `utf8ByteSize`. -/
def apply_transact (state : ParachainState) (transact : Transact) : ParachainState :=
  { state with logs := state.logs
      ++ ["Transact executed: call_data_len=" ++ toString transact.call_data.utf8ByteSize
          ++ ", weight=" ++ toString (transact.weight.getD 0)] }

/-- `apply_query`: no balance effect, one ledger log line. -/
def apply_query (state : ParachainState) (response : QueryResponse) : ParachainState :=
  { state with logs := state.logs
      ++ ["QueryResponse stored: id=" ++ response.query_id
          ++ ", response=" ++ response.response] }

/-- One iteration of the instruction loop of
`DefaultExecutionEngine::execute`: the per-variant effect on the
destination state, paired with the outcome log line pushed to `logs`. -/
def execute_instruction (state : ParachainState) :
    Instruction → ParachainState × String
  | .transferReserveAsset data =>
    (apply_transfer state data,
     "TransferReserveAsset: " ++ toString data.amount ++ " " ++ data.asset
       ++ " to " ++ data.beneficiary)
  | .transact data =>
    (apply_transact state data,
     "Transact: call_data=" ++ toString data.call_data.utf8ByteSize
       ++ " bytes, weight=" ++ toString (data.weight.getD 0))
  | .queryResponse data =>
    (apply_query state data,
     "QueryResponse: id=" ++ data.query_id
       ++ ", response_length=" ++ toString data.response.utf8ByteSize)

/-- The instruction loop of `DefaultExecutionEngine::execute`, returning
the final destination state and the accumulated outcome logs. -/
def execute_instructions (state : ParachainState) :
    List Instruction → ParachainState × List String
  | [] => (state, [])
  | i :: rest =>
    let step := execute_instruction state i
    let tail := execute_instructions step.1 rest
    (tail.1, step.2 :: tail.2)

/-- `DefaultExecutionEngine::execute`: look up the destination parachain,
apply every instruction, return the outcome and the updated parachain
map. -/
def engine_execute (parachains : List (Nat × ParachainState))
    (message : MessageEnvelope) :
    Except ExecutionError (ExecutionOutcome × List (Nat × ParachainState)) :=
  match mapLookup message.dest_para parachains with
  | none => .error (.unknownParachain message.dest_para)
  | some dest_state =>
    let run := execute_instructions dest_state message.instructions
    .ok (⟨run.2⟩, mapInsert message.dest_para run.1 parachains)

/-! ## Message processor, snapshot under `src/processor/mod.rs`

The processor module present under `src/` is a superseded snapshot of the
relay pipeline: its `submit_message` returns `Result<(), _>` while
`src/api/mod.rs` binds the call's result to the `messageId` string of the
HTTP response, and its `run_relay_loop` takes two arguments while
`src/lib.rs` spawns `run_relay_loop(state, execution_engine, relay_rx)`
with three.  It is embedded here as written; the final variant those
callers use is modelled from the spec further below. -/

/-- `MAX_HOPS`: maximum number of hops supported by the relay. -/
def MAX_HOPS : Nat := 3

/-- Message stored in the processing queue (`QueuedMessage`): the
snapshot's queue item carries no message id. -/
structure QueuedMessage where
  envelope : MessageEnvelope
  raw_payload : List Nat
deriving DecidableEq, Repr

/-- Errors that can occur while processing a message submission
(`ProcessorError`). -/
inductive ProcessorError
  | validation (e : MessageValidationError)
  | signature (e : CryptoError)
  | channelClosed
  | statePoisoned
deriving DecidableEq, Repr

/-- `MessageProcessor::submit_message` (snapshot): validate, verify the
signature, insert the `Pending` record under the resolved id, then send
to the queue.  `fresh_id` is the value `Uuid::new_v4()` would mint;
`channel_open` is whether the queue's receiving side is still alive.
Returns the result, the updated message map and the items emitted to the
queue. -/
def submit_message (configured_version : String) (reg : KeyRegistry)
    (fresh_id : String) (channel_open : Bool) (envelope : MessageEnvelope)
    (raw_payload signature : List Nat)
    (messages : List (String × MessageRecord)) :
    Except ProcessorError Unit × List (String × MessageRecord) × List QueuedMessage :=
  match envelope.validate configured_version with
  | .error e => (.error (.validation e), messages, [])
  | .ok _ =>
    match reg.verify_signature envelope.sender_para raw_payload signature with
    | .error e => (.error (.signature e), messages, [])
    | .ok _ =>
      let message_id := envelope.message_id.getD fresh_id
      let messages :=
        mapInsert message_id ⟨MessageStatus.pending, [envelope.sender_para]⟩ messages
      if channel_open then (.ok (), messages, [⟨envelope, raw_payload⟩])
      else (.error .channelClosed, messages, [])

/-- Relay-side errors of the snapshot (`RelayError`). -/
inductive RelayError
  | unknownDestination (para_id : Nat)
  | statePoisoned
  | hopLimitExceeded
deriving DecidableEq, Repr

/-- The `thiserror` display strings of `RelayError`. -/
def RelayError.message : RelayError → String
  | .unknownDestination para_id =>
    "destination parachain " ++ toString para_id ++ " not found"
  | .statePoisoned => "state lock poisoned"
  | .hopLimitExceeded => "maximum hop count exceeded"

/-- `process_single_message` (snapshot): build the two-element hop path,
check it against `MAX_HOPS`, record the hops on the message record looked
up under a freshly minted id when the envelope carries none
(`fresh_id` is that `Uuid::new_v4()` value), then require the destination
parachain and append its receipt log. -/
def process_single_message (state : ServiceState) (queued : QueuedMessage)
    (fresh_id : String) : Except RelayError Unit × ServiceState :=
  let hops := [queued.envelope.sender_para, queued.envelope.dest_para]
  if hops.length > MAX_HOPS then (.error .hopLimitExceeded, state)
  else
    let message_id := queued.envelope.message_id.getD fresh_id
    let messages :=
      match mapLookup message_id state.messages with
      | some record => mapInsert message_id { record with hops := hops } state.messages
      | none => state.messages
    let state := { state with messages := messages }
    match mapLookup queued.envelope.dest_para state.parachains with
    | none => (.error (.unknownDestination queued.envelope.dest_para), state)
    | some parachain =>
      let parachain := { parachain with logs := parachain.logs
        ++ ["Received message with " ++ toString queued.envelope.instructions.length
            ++ " instructions"] }
      (.ok (), { state with
        parachains := mapInsert queued.envelope.dest_para parachain state.parachains })

/-- The status `run_relay_loop` (snapshot) computes for one dequeued
message: `Relayed` on success, `Failed` with the stringified cause
otherwise. -/
def run_relay_new_status (state : ServiceState) (queued : QueuedMessage)
    (fresh_id_inner : String) : MessageStatus :=
  match (process_single_message state queued fresh_id_inner).1 with
  | .ok _ => MessageStatus.relayed
  | .error e => MessageStatus.failed e.message

/-- One iteration of `run_relay_loop` (snapshot): resolve the id (minting
`fresh_id_outer` when the envelope carries none — a second, independent
`Uuid::new_v4()` call), process, then write the new status into the
record, inserting a fresh record with empty hops when absent. -/
def run_relay_step (state : ServiceState) (queued : QueuedMessage)
    (fresh_id_outer fresh_id_inner : String) : ServiceState :=
  let message_id := queued.envelope.message_id.getD fresh_id_outer
  let new_status := run_relay_new_status state queued fresh_id_inner
  let state := (process_single_message state queued fresh_id_inner).2
  let messages :=
    match mapLookup message_id state.messages with
    | some record => mapInsert message_id { record with status := new_status } state.messages
    | none => mapInsert message_id ⟨new_status, []⟩ state.messages
  { state with messages := messages }

/-! ## Message processor, final variant (modelled from the spec)

`src/lib.rs` spawns `run_relay_loop(state, execution_engine, relay_rx)`
and `src/api/mod.rs` uses `submit_message`'s success value as the
returned message-id string; the processor module implementing those
signatures — the variant spec section 9 designates as authoritative — is
not present under `src/`.  The definitions below model it from spec
sections 4.2 and 4.3, reusing the validator, crypto boundary and
execution engine embedded from `src/` above. -/

/-- Modelled from the spec: the queue item of the final processor variant
(spec section 4.2 step 5), which carries the resolved message id. -/
structure SpecQueuedMessage where
  message_id : String
  envelope : MessageEnvelope
  raw_payload : List Nat
deriving DecidableEq, Repr

/-- Modelled from the spec: `submit` of the final processor variant (spec
section 4.2), whose implementation is missing under `src/`.  Identical to
the snapshot's `submit_message` up to the queue item carrying the
resolved id and the success value being that id (steps 3, 5 and 6). -/
def spec_submit (configured_version : String) (reg : KeyRegistry)
    (fresh_id : String) (channel_open : Bool) (envelope : MessageEnvelope)
    (raw_payload signature : List Nat)
    (messages : List (String × MessageRecord)) :
    Except ProcessorError String × List (String × MessageRecord) × List SpecQueuedMessage :=
  match envelope.validate configured_version with
  | .error e => (.error (.validation e), messages, [])
  | .ok _ =>
    match reg.verify_signature envelope.sender_para raw_payload signature with
    | .error e => (.error (.signature e), messages, [])
    | .ok _ =>
      let message_id := envelope.message_id.getD fresh_id
      let messages :=
        mapInsert message_id ⟨MessageStatus.pending, [envelope.sender_para]⟩ messages
      if channel_open then
        (.ok message_id, messages, [⟨message_id, envelope, raw_payload⟩])
      else (.error .channelClosed, messages, [])

/-- Modelled from the spec: the terminal status the final relay worker
computes for one dequeued message (spec section 4.3 steps 2 and 3) —
`Failed` on the hop-ceiling policy, otherwise `Executed` with the
engine-provided summary or `Failed` with the stringified engine error. -/
def spec_new_status (parachains : List (Nat × ParachainState))
    (envelope : MessageEnvelope) : MessageStatus :=
  if [envelope.sender_para, envelope.dest_para].length > MAX_HOPS then
    MessageStatus.failed "maximum hop count exceeded"
  else
    match engine_execute parachains envelope with
    | .ok run => MessageStatus.executed run.1.summary
    | .error e => MessageStatus.failed e.message

/-- Modelled from the spec: one iteration of the final relay loop (spec
section 4.3), whose implementation is missing under `src/`: compute the
hop path `[sender, dest]`, check the hop ceiling before execution, invoke
the execution engine, and write the terminal status and hop path back
under the queued message id, inserting a fresh record when absent. -/
def spec_relay_step (state : ServiceState) (queued : SpecQueuedMessage) :
    ServiceState :=
  let hops := [queued.envelope.sender_para, queued.envelope.dest_para]
  if hops.length > MAX_HOPS then
    let record : MessageRecord := ⟨MessageStatus.failed "maximum hop count exceeded", hops⟩
    { state with messages := mapInsert queued.message_id record state.messages }
  else
    match engine_execute state.parachains queued.envelope with
    | .ok run =>
      let record : MessageRecord := ⟨MessageStatus.executed run.1.summary, hops⟩
      { parachains := run.2,
        messages := mapInsert queued.message_id record state.messages }
    | .error e =>
      let record : MessageRecord := ⟨MessageStatus.failed e.message, hops⟩
      { state with messages := mapInsert queued.message_id record state.messages }

/-! ## Concrete fixtures

Mirroring the repository's own sample data: the `sample_message` test of
`src/domain/message.rs` and the chains `{1000, 2000}` / version `V3`
scenario of spec section 8. -/

/-- The spec section 8 transfer: 10 DOT to `acct-123`. -/
def transferW : TransferReserveAsset := ⟨"DOT", 10, "acct-123"⟩

/-- A valid envelope with a caller-supplied id, as in `sample_message`. -/
def envW : MessageEnvelope :=
  ⟨some "msg-1", 1000, 2000, .v3, [.transferReserveAsset transferW], some "deadbeef"⟩

/-- A valid envelope with no caller-supplied id. -/
def envNoId : MessageEnvelope :=
  ⟨none, 1000, 2000, .v3, [.transferReserveAsset transferW], none⟩

/-- A valid envelope addressed to the unregistered chain 9999 (spec
section 8 scenario). -/
def env9999 : MessageEnvelope :=
  ⟨some "msg-9", 1000, 9999, .v3, [.transferReserveAsset transferW], none⟩

/-- An envelope whose version (V4) differs from the configured "V3" and
whose sender chain id is zero. -/
def envZero : MessageEnvelope :=
  ⟨none, 0, 2000, .v4, [.transferReserveAsset transferW], none⟩

/-- A valid envelope except for its V4 version against configured "V3". -/
def envV4 : MessageEnvelope :=
  ⟨some "msg-5", 1000, 2000, .v4, [.transferReserveAsset transferW], none⟩

/-- A structurally invalid `Transact` instruction (empty call data). -/
def badTransact : Transact := ⟨"", none⟩

/-- An envelope whose version differs from the configured one and whose
instruction list contains a structurally invalid instruction. -/
def envMismatchBad : MessageEnvelope :=
  ⟨none, 1, 2, .v4, [.transact badTransact], none⟩

/-- A matching-version envelope whose second instruction (index 1) is
structurally invalid. -/
def envIdxW : MessageEnvelope :=
  ⟨none, 1, 2, .v3, [.transferReserveAsset transferW, .transact badTransact], none⟩

/-- A registry for chains 1000 and 2000 whose ed25519 oracle accepts. -/
def regW : KeyRegistry := ⟨[1000, 2000], fun _ _ _ => true⟩

/-- A registry for chains 1000 and 2000 whose ed25519 oracle rejects
(the envelope's signature does not verify against the sender's key). -/
def regBad : KeyRegistry := ⟨[1000, 2000], fun _ _ _ => false⟩

/-- A well-formed 64-byte signature. -/
def sigW : List Nat := List.replicate 64 0

/-- Startup state with chains 1000 and 2000 registered and no messages. -/
def stW : ServiceState := ⟨[(1000, ⟨[], []⟩), (2000, ⟨[], []⟩)], []⟩

/-! ## Map lemmas and sanity checks -/

theorem mapLookup_mapInsert_self {κ α : Type} [DecidableEq κ] (k : κ) (v : α)
    (m : List (κ × α)) : mapLookup k (mapInsert k v m) = some v := by
  induction m with
  | nil => simp [mapInsert, mapLookup]
  | cons p t ih =>
    obtain ⟨a, b⟩ := p
    by_cases hak : a = k <;> simp [mapInsert, mapLookup, hak, ih]

theorem mapLookup_mapInsert_ne {κ α : Type} [DecidableEq κ] {k k' : κ} (v : α)
    (m : List (κ × α)) (h : k' ≠ k) :
    mapLookup k' (mapInsert k v m) = mapLookup k' m := by
  have hkk : k ≠ k' := Ne.symm h
  induction m with
  | nil => simp [mapInsert, mapLookup, hkk]
  | cons p t ih =>
    obtain ⟨a, b⟩ := p
    by_cases hak : a = k
    · subst hak
      simp [mapInsert, mapLookup, hkk]
    · by_cases hak' : a = k' <;> simp [mapInsert, mapLookup, hak, hak', h, ih]

example : envW.validate "V3" = .ok () := rfl

example : errCode ((MessageEnvelope.mk (some "m") 1000 2000 .v3 [] none).validate "V3")
    = some .invalidPayload := rfl

example : errCode (envV4.validate "V3") = some .versionMismatch := rfl

example : regW.verify_signature 1000 [1] sigW = .ok () := rfl

example : regBad.verify_signature 1000 [1] sigW
    = .error (.invalidSignature "signature verification failed") := rfl

/-! ## Claims -/

/-- Claim C1: for every queued message the relay worker processes
successfully (destination chain registered; poisoning is not
representable here), the relay loop writes the terminal status
`Executed` — carrying the engine-provided optional outcome summary — into
the message's record, and never the intermediate status `Relayed`. -/
theorem claim_C1 (state : ServiceState) (queued : SpecQueuedMessage)
    (ps : ParachainState)
    (hdest : mapLookup queued.envelope.dest_para state.parachains = some ps) :
    mapLookup queued.message_id (spec_relay_step state queued).messages
      = some ⟨MessageStatus.executed
          (ExecutionOutcome.summary
            ⟨(execute_instructions ps queued.envelope.instructions).2⟩),
        [queued.envelope.sender_para, queued.envelope.dest_para]⟩
    ∧ ∀ hs, mapLookup queued.message_id (spec_relay_step state queued).messages
        ≠ some ⟨MessageStatus.relayed, hs⟩ := by
  have hexec : engine_execute state.parachains queued.envelope
      = .ok (⟨(execute_instructions ps queued.envelope.instructions).2⟩,
          mapInsert queued.envelope.dest_para
            (execute_instructions ps queued.envelope.instructions).1
            state.parachains) := by
    simp [engine_execute, hdest]
  have h1 : mapLookup queued.message_id (spec_relay_step state queued).messages
      = some ⟨MessageStatus.executed
          (ExecutionOutcome.summary
            ⟨(execute_instructions ps queued.envelope.instructions).2⟩),
        [queued.envelope.sender_para, queued.envelope.dest_para]⟩ := by
    simp [spec_relay_step, MAX_HOPS, hexec, mapLookup_mapInsert_self]
  refine ⟨h1, ?_⟩
  intro hs hcontra
  rw [h1] at hcontra
  simp at hcontra

/-- Witness for C1 at the spec section 8 scenario: chains 1000/2000
registered, one 10-DOT transfer; the record ends `Executed` with the
engine summary. -/
theorem claim_C1_witness :
    mapLookup "msg-1" (spec_relay_step stW ⟨"msg-1", envW, [1]⟩).messages
      = some ⟨MessageStatus.executed (some "1 instructions applied"), [1000, 2000]⟩
    ∧ ∀ hs, mapLookup "msg-1" (spec_relay_step stW ⟨"msg-1", envW, [1]⟩).messages
        ≠ some ⟨MessageStatus.relayed, hs⟩ :=
  claim_C1 stW ⟨"msg-1", envW, [1]⟩ ⟨[], []⟩ rfl

/-- Claim C2: for every envelope that passes validation and signature
verification and is successfully enqueued, the final variant's `submit`
returns the resolved message id — the caller-supplied id if present, else
the freshly minted identifier. -/
theorem claim_C2 (configured_version : String) (reg : KeyRegistry)
    (fresh_id : String) (envelope : MessageEnvelope)
    (raw_payload signature : List Nat)
    (messages : List (String × MessageRecord))
    (hv : envelope.validate configured_version = .ok ())
    (hs : reg.verify_signature envelope.sender_para raw_payload signature = .ok ()) :
    (spec_submit configured_version reg fresh_id true envelope
        raw_payload signature messages).1
      = .ok (envelope.message_id.getD fresh_id)
    ∧ (∀ i, envelope.message_id = some i →
        (spec_submit configured_version reg fresh_id true envelope
            raw_payload signature messages).1 = .ok i)
    ∧ (envelope.message_id = none →
        (spec_submit configured_version reg fresh_id true envelope
            raw_payload signature messages).1 = .ok fresh_id) := by
  refine ⟨?_, ?_, ?_⟩
  · simp [spec_submit, hv, hs]
  · intro i hi
    simp [spec_submit, hv, hs, hi]
  · intro hi
    simp [spec_submit, hv, hs, hi]

/-- Witness for C2: the caller-supplied id `msg-1` is returned. -/
theorem claim_C2_witness :
    (spec_submit "V3" regW "uuid-1" true envW [1] sigW []).1 = .ok "msg-1" :=
  (claim_C2 "V3" regW "uuid-1" envW [1] sigW [] rfl rfl).2.1 "msg-1" rfl

/-- Claim C4: for every envelope that passes validation but whose
signature fails verification, `submit_message` returns a `Signature`
error, the message map is unchanged and nothing is enqueued. -/
theorem claim_C4 (configured_version : String) (reg : KeyRegistry)
    (fresh_id : String) (channel_open : Bool) (envelope : MessageEnvelope)
    (raw_payload signature : List Nat)
    (messages : List (String × MessageRecord)) (ce : CryptoError)
    (hv : envelope.validate configured_version = .ok ())
    (hs : reg.verify_signature envelope.sender_para raw_payload signature
      = .error ce) :
    submit_message configured_version reg fresh_id channel_open envelope
        raw_payload signature messages
      = (.error (.signature ce), messages, []) := by
  simp [submit_message, hv, hs]

/-- Witness for C4: a valid envelope whose signature does not verify
against chain 1000's key; no record is created, nothing is enqueued. -/
theorem claim_C4_witness :
    submit_message "V3" regBad "uuid-1" true envW [1] sigW []
      = (.error (.signature (.invalidSignature "signature verification failed")),
         [], []) :=
  claim_C4 "V3" regBad "uuid-1" true envW [1] sigW []
    (.invalidSignature "signature verification failed") rfl rfl

/-- Claim C7: for every envelope that passes validation and signature
verification, `submit_message` inserts a `MessageRecord` with status
`Pending` and hops `[senderChainId]` under the resolved id before
enqueueing — the record is present whatever the channel state, and on a
live channel the envelope is enqueued. -/
theorem claim_C7 (configured_version : String) (reg : KeyRegistry)
    (fresh_id : String) (channel_open : Bool) (envelope : MessageEnvelope)
    (raw_payload signature : List Nat)
    (messages : List (String × MessageRecord))
    (hv : envelope.validate configured_version = .ok ())
    (hs : reg.verify_signature envelope.sender_para raw_payload signature = .ok ()) :
    mapLookup (envelope.message_id.getD fresh_id)
        (submit_message configured_version reg fresh_id channel_open envelope
          raw_payload signature messages).2.1
      = some ⟨MessageStatus.pending, [envelope.sender_para]⟩
    ∧ (channel_open = true →
        (submit_message configured_version reg fresh_id channel_open envelope
            raw_payload signature messages).2.2
          = [⟨envelope, raw_payload⟩]) := by
  constructor
  · cases channel_open <;>
      simp [submit_message, hv, hs, mapLookup_mapInsert_self]
  · intro hchan
    subst hchan
    simp [submit_message, hv, hs]

/-- Witness for C7: after admission of `envW`, an immediate status lookup
for `msg-1` returns `Pending` with hops `[1000]`. -/
theorem claim_C7_witness :
    mapLookup "msg-1" (submit_message "V3" regW "uuid-1" true envW [1] sigW []).2.1
      = some ⟨MessageStatus.pending, [1000]⟩
    ∧ (true = true →
        (submit_message "V3" regW "uuid-1" true envW [1] sigW []).2.2
          = [⟨envW, [1]⟩]) :=
  claim_C7 "V3" regW "uuid-1" true envW [1] sigW [] rfl rfl

/-- Claim C3: every message admitted by the final variant's `submit` —
including envelopes with no caller-supplied id — is enqueued under the
very id its admission resolved; the relay step then writes the computed
terminal status (never `Pending`) and hop path into the record under that
same id, and touches no record under any other id. -/
theorem claim_C3 (configured_version : String) (reg : KeyRegistry)
    (fresh_id : String) (envelope : MessageEnvelope)
    (raw_payload signature : List Nat) (state : ServiceState)
    (hv : envelope.validate configured_version = .ok ())
    (hs : reg.verify_signature envelope.sender_para raw_payload signature = .ok ()) :
    (spec_submit configured_version reg fresh_id true envelope
        raw_payload signature state.messages).2.2
      = [⟨envelope.message_id.getD fresh_id, envelope, raw_payload⟩]
    ∧ mapLookup (envelope.message_id.getD fresh_id)
        (spec_relay_step
          ⟨state.parachains,
           (spec_submit configured_version reg fresh_id true envelope
             raw_payload signature state.messages).2.1⟩
          ⟨envelope.message_id.getD fresh_id, envelope, raw_payload⟩).messages
      = some ⟨spec_new_status state.parachains envelope,
          [envelope.sender_para, envelope.dest_para]⟩
    ∧ spec_new_status state.parachains envelope ≠ MessageStatus.pending
    ∧ ∀ k, k ≠ envelope.message_id.getD fresh_id →
        mapLookup k
          (spec_relay_step
            ⟨state.parachains,
             (spec_submit configured_version reg fresh_id true envelope
               raw_payload signature state.messages).2.1⟩
            ⟨envelope.message_id.getD fresh_id, envelope, raw_payload⟩).messages
        = mapLookup k state.messages := by
  have hmsgs : (spec_submit configured_version reg fresh_id true envelope
      raw_payload signature state.messages).2.1
      = mapInsert (envelope.message_id.getD fresh_id)
          ⟨MessageStatus.pending, [envelope.sender_para]⟩ state.messages := by
    simp [spec_submit, hv, hs]
  refine ⟨by simp [spec_submit, hv, hs], ?_, ?_, ?_⟩
  · cases hex : engine_execute state.parachains envelope with
    | ok run =>
      simp [spec_relay_step, spec_new_status, MAX_HOPS, hex,
        mapLookup_mapInsert_self]
    | error e =>
      simp [spec_relay_step, spec_new_status, MAX_HOPS, hex,
        mapLookup_mapInsert_self]
  · cases hex : engine_execute state.parachains envelope with
    | ok run => simp [spec_new_status, MAX_HOPS, hex]
    | error e => simp [spec_new_status, MAX_HOPS, hex]
  · intro k hk
    rw [hmsgs] at *
    cases hex : engine_execute state.parachains envelope with
    | ok run =>
      simp [spec_relay_step, MAX_HOPS, hex,
        mapLookup_mapInsert_ne _ _ hk]
    | error e =>
      simp [spec_relay_step, MAX_HOPS, hex,
        mapLookup_mapInsert_ne _ _ hk]

/-- Witness for C3 at an envelope with no caller-supplied id: the minted
id `uuid-7` keys the queue item, the terminal record and nothing else. -/
theorem claim_C3_witness :
    (spec_submit "V3" regW "uuid-7" true envNoId [1] sigW stW.messages).2.2
      = [⟨"uuid-7", envNoId, [1]⟩]
    ∧ mapLookup "uuid-7"
        (spec_relay_step
          ⟨stW.parachains,
           (spec_submit "V3" regW "uuid-7" true envNoId [1] sigW stW.messages).2.1⟩
          ⟨"uuid-7", envNoId, [1]⟩).messages
      = some ⟨spec_new_status stW.parachains envNoId, [1000, 2000]⟩
    ∧ spec_new_status stW.parachains envNoId ≠ MessageStatus.pending
    ∧ ∀ k, k ≠ "uuid-7" →
        mapLookup k
          (spec_relay_step
            ⟨stW.parachains,
             (spec_submit "V3" regW "uuid-7" true envNoId [1] sigW stW.messages).2.1⟩
            ⟨"uuid-7", envNoId, [1]⟩).messages
        = mapLookup k stW.messages :=
  claim_C3 "V3" regW "uuid-7" envNoId [1] sigW stW rfl rfl

/-- Claim C8: a dequeued message whose destination chain id is not
registered is finalised as `Failed` with an error string naming that
chain id, and its hop path is still recorded as `[sender, dest]`. -/
theorem claim_C8 (state : ServiceState) (queued : SpecQueuedMessage)
    (hdest : mapLookup queued.envelope.dest_para state.parachains = none) :
    mapLookup queued.message_id (spec_relay_step state queued).messages
      = some ⟨MessageStatus.failed
          ("destination parachain " ++ toString queued.envelope.dest_para
            ++ " not registered"),
        [queued.envelope.sender_para, queued.envelope.dest_para]⟩ := by
  have hexec : engine_execute state.parachains queued.envelope
      = .error (.unknownParachain queued.envelope.dest_para) := by
    simp [engine_execute, hdest]
  simp [spec_relay_step, MAX_HOPS, hexec, ExecutionError.message,
    mapLookup_mapInsert_self]

/-- Witness for C8 at the spec section 8 scenario: destination 9999 is
unregistered; the record ends `Failed` naming 9999 with hops
`[1000, 9999]`. -/
theorem claim_C8_witness :
    mapLookup "msg-9" (spec_relay_step stW ⟨"msg-9", env9999, [1]⟩).messages
      = some ⟨MessageStatus.failed "destination parachain 9999 not registered",
          [1000, 9999]⟩ :=
  claim_C8 stW ⟨"msg-9", env9999, [1]⟩ rfl

/-- Counterexample to claim C5 as stated: `envZero`'s version V4 differs
from the configured "V3", yet `validate` returns `InvalidPayload` (the
zero-sender check precedes the version check), not `VersionMismatch`. -/
theorem claim_C5_counterexample :
    envZero.xcm_version.is_supported "V3" = false
    ∧ errCode (envZero.validate "V3") = some XcmErrorCode.invalidPayload
    ∧ errCode (envZero.validate "V3") ≠ some XcmErrorCode.versionMismatch :=
  ⟨rfl, rfl, by decide⟩

/-- Claim C5 (amended): for all envelopes passing the structural checks
that precede the version check (non-zero, distinct chain ids, non-empty
instruction list) whose version differs from the configured version
(case-insensitively against the plain token), `validate` returns
`VersionMismatch`, and `submit_message` returns that validation error
with the message map unchanged and nothing enqueued, whatever the key
registry — the authentication step is never attempted. -/
theorem claim_C5_amended (configured_version : String) (reg : KeyRegistry)
    (fresh_id : String) (channel_open : Bool) (envelope : MessageEnvelope)
    (raw_payload signature : List Nat)
    (messages : List (String × MessageRecord))
    (h1 : envelope.sender_para ≠ 0) (h2 : envelope.dest_para ≠ 0)
    (h3 : envelope.sender_para ≠ envelope.dest_para)
    (h4 : envelope.instructions ≠ [])
    (h5 : envelope.xcm_version.is_supported configured_version = false) :
    envelope.validate configured_version
      = .error ⟨XcmErrorCode.versionMismatch,
          "message version " ++ envelope.xcm_version.display
            ++ " mismatches configured version " ++ configured_version⟩
    ∧ submit_message configured_version reg fresh_id channel_open envelope
        raw_payload signature messages
      = (.error (.validation ⟨XcmErrorCode.versionMismatch,
          "message version " ++ envelope.xcm_version.display
            ++ " mismatches configured version " ++ configured_version⟩),
         messages, []) := by
  have hval : envelope.validate configured_version
      = .error ⟨XcmErrorCode.versionMismatch,
          "message version " ++ envelope.xcm_version.display
            ++ " mismatches configured version " ++ configured_version⟩ := by
    unfold MessageEnvelope.validate
    rw [if_neg (by simp [h1, h2]), if_neg h3,
      if_neg (by simp [List.isEmpty_iff, h4]), if_neg (by simp [h5])]
  exact ⟨hval, by simp [submit_message, hval]⟩

/-- Witness for C5 (amended) at `envV4` against configured "V3". -/
theorem claim_C5_witness :
    envV4.validate "V3"
      = .error ⟨XcmErrorCode.versionMismatch,
          "message version V4 mismatches configured version V3"⟩
    ∧ submit_message "V3" regW "uuid-1" true envV4 [1] sigW []
      = (.error (.validation ⟨XcmErrorCode.versionMismatch,
          "message version V4 mismatches configured version V3"⟩), [], []) :=
  claim_C5_amended "V3" regW "uuid-1" true envV4 [1] sigW []
    (by decide) (by decide) (by decide) (by decide) rfl

/-- The enumerated instruction loop of `MessageEnvelope::validate` stops
at the first invalid instruction and names its index. -/
theorem validateInstructionsFrom_first_error (pre : List Instruction)
    (bad : Instruction) (rest : List Instruction) (e : MessageValidationError)
    (idx : Nat)
    (hpre : ∀ i ∈ pre, Instruction.validate i = .ok ())
    (hbad : Instruction.validate bad = .error e) :
    validateInstructionsFrom idx (pre ++ bad :: rest)
      = .error ⟨XcmErrorCode.invalidPayload,
          "instruction " ++ toString (idx + pre.length) ++ " invalid: "
            ++ e.detail⟩ := by
  induction pre generalizing idx with
  | nil =>
    simp [validateInstructionsFrom, hbad, MessageValidationError.invalid_payload]
  | cons a t ih =>
    have ha : Instruction.validate a = .ok () := hpre a (by simp)
    have ht : ∀ i ∈ t, Instruction.validate i = .ok () :=
      fun i hi => hpre i (by simp [hi])
    have hlen : idx + 1 + t.length = idx + (a :: t).length := by
      simp [List.length_cons]
      omega
    simp only [List.cons_append, validateInstructionsFrom, ha, List.append_eq]
    rw [ih (idx + 1) ht, hlen]

/-- Counterexample to claim C6 as stated: `envMismatchBad` contains a
structurally invalid instruction, yet `validate` returns
`VersionMismatch` (the version check precedes the instruction loop), not
`InvalidPayload`. -/
theorem claim_C6_counterexample :
    (Instruction.transact badTransact).validate
      = .error ⟨XcmErrorCode.invalidPayload, "call_data must be provided"⟩
    ∧ errCode (envMismatchBad.validate "V3") = some XcmErrorCode.versionMismatch
    ∧ errCode (envMismatchBad.validate "V3") ≠ some XcmErrorCode.invalidPayload :=
  ⟨rfl, rfl, by decide⟩

/-- Claim C6 (amended): an envelope with a zero chain id, equal chain
ids, or an empty instruction list always fails `validate` with
`InvalidPayload`; and when those checks pass and the version matches, an
envelope whose first structurally invalid instruction sits at index
`pre.length` fails with `InvalidPayload` whose detail names exactly that
index. -/
theorem claim_C6_amended (envelope : MessageEnvelope)
    (configured_version : String) :
    ((envelope.sender_para = 0 ∨ envelope.dest_para = 0
        ∨ envelope.sender_para = envelope.dest_para
        ∨ envelope.instructions = []) →
      errCode (envelope.validate configured_version)
        = some XcmErrorCode.invalidPayload)
    ∧ (∀ pre bad rest e,
        envelope.sender_para ≠ 0 → envelope.dest_para ≠ 0 →
        envelope.sender_para ≠ envelope.dest_para →
        envelope.xcm_version.is_supported configured_version = true →
        envelope.instructions = pre ++ bad :: rest →
        (∀ i ∈ pre, Instruction.validate i = .ok ()) →
        Instruction.validate bad = .error e →
        envelope.validate configured_version
          = .error ⟨XcmErrorCode.invalidPayload,
              "instruction " ++ toString pre.length ++ " invalid: "
                ++ e.detail⟩) := by
  constructor
  · intro hdisj
    by_cases hz : envelope.sender_para = 0 ∨ envelope.dest_para = 0
    · simp [MessageEnvelope.validate, hz, errCode,
        MessageValidationError.invalid_payload]
    · have hs0 : envelope.sender_para ≠ 0 := fun h => hz (Or.inl h)
      have hd0 : envelope.dest_para ≠ 0 := fun h => hz (Or.inr h)
      by_cases heq : envelope.sender_para = envelope.dest_para
      · simp [MessageEnvelope.validate, hs0, hd0, heq, errCode,
          MessageValidationError.invalid_payload]
      · by_cases hemp : envelope.instructions = []
        · simp [MessageEnvelope.validate, hs0, hd0, heq, hemp, errCode,
            MessageValidationError.invalid_payload]
        · rcases hdisj with h | h | h | h
          · exact absurd (Or.inl h) hz
          · exact absurd (Or.inr h) hz
          · exact absurd h heq
          · exact absurd h hemp
  · intro pre bad rest e hn1 hn2 hn3 hver hinstr hpre hbad
    unfold MessageEnvelope.validate
    rw [if_neg (by simp [hn1, hn2]), if_neg hn3,
      if_neg (by simp [List.isEmpty_iff, hinstr]), if_pos (by simp [hver]),
      hinstr]
    simpa using validateInstructionsFrom_first_error pre bad rest e 0 hpre hbad

/-- Witness for C6 (amended): a zero-sender envelope fails with
`InvalidPayload`, and `envIdxW`'s invalid second instruction is named by
index 1 in the error detail. -/
theorem claim_C6_witness :
    errCode (envZero.validate "V4") = some XcmErrorCode.invalidPayload
    ∧ envIdxW.validate "V3"
      = .error ⟨XcmErrorCode.invalidPayload,
          "instruction 1 invalid: call_data must be provided"⟩ :=
  ⟨(claim_C6_amended envZero "V4").1 (Or.inl rfl),
   (claim_C6_amended envIdxW "V3").2 [.transferReserveAsset transferW]
     (.transact badTransact) [] ⟨XcmErrorCode.invalidPayload, "call_data must be provided"⟩
     (by decide) (by decide) (by decide) rfl rfl
     (by
       intro i hi
       rw [List.mem_singleton] at hi
       subst hi
       rfl)
     rfl⟩

/-- Claim C9: a `TransferReserveAsset` applied by the execution engine
sets the beneficiary's destination-ledger balance to the saturating sum
of the previous balance (0 if absent) and the amount — exact when in
range, capped at the u128 maximum on overflow, never wrapping — and
appends a log line recording the beneficiary and the new balance. -/
theorem claim_C9 (state : ParachainState) (transfer : TransferReserveAsset)
    (old : Nat)
    (_hamt : transfer.amount ≤ U128_MAX)
    (holdeq : (mapLookup transfer.beneficiary state.balances).getD 0 = old) :
    mapLookup transfer.beneficiary (apply_transfer state transfer).balances
      = some (min (old + transfer.amount) U128_MAX)
    ∧ min (old + transfer.amount) U128_MAX ≤ U128_MAX
    ∧ (old + transfer.amount ≤ U128_MAX →
        min (old + transfer.amount) U128_MAX = old + transfer.amount)
    ∧ (U128_MAX ≤ old + transfer.amount →
        min (old + transfer.amount) U128_MAX = U128_MAX)
    ∧ (apply_transfer state transfer).logs
      = state.logs ++ ["Balance updated: " ++ transfer.beneficiary ++ " => "
          ++ toString (min (old + transfer.amount) U128_MAX)] := by
  subst holdeq
  refine ⟨?_, min_le_right _ _, fun h => min_eq_left h, fun h => min_eq_right h, ?_⟩
  · simp [apply_transfer, satAdd, mapLookup_mapInsert_self]
  · simp [apply_transfer, satAdd]

/-- Witness for C9 at a saturating input: previous balance 5 plus a
u128-maximal amount caps at the u128 maximum. -/
theorem claim_C9_witness :
    mapLookup "acct-123"
        (apply_transfer ⟨[("acct-123", 5)], []⟩ ⟨"DOT", U128_MAX, "acct-123"⟩).balances
      = some (min (5 + U128_MAX) U128_MAX)
    ∧ min (5 + U128_MAX) U128_MAX ≤ U128_MAX
    ∧ (5 + U128_MAX ≤ U128_MAX → min (5 + U128_MAX) U128_MAX = 5 + U128_MAX)
    ∧ (U128_MAX ≤ 5 + U128_MAX → min (5 + U128_MAX) U128_MAX = U128_MAX)
    ∧ (apply_transfer ⟨[("acct-123", 5)], []⟩ ⟨"DOT", U128_MAX, "acct-123"⟩).logs
      = [] ++ ["Balance updated: " ++ "acct-123" ++ " => "
          ++ toString (min (5 + U128_MAX) U128_MAX)] :=
  claim_C9 ⟨[("acct-123", 5)], []⟩ ⟨"DOT", U128_MAX, "acct-123"⟩ 5
    (le_refl U128_MAX) rfl

theorem string_length_append (s t : String) :
    (s ++ t).length = s.length + t.length := by
  cases s with
  | mk a => cases t with
    | mk b => exact List.length_append a b

/-- The snapshot's `UnknownDestination` display string never coincides
with the hop-limit message, whatever the chain id (their lengths differ:
32 plus the digits versus 26). -/
theorem unknownDestination_message_ne_hopLimit (para_id : Nat) :
    RelayError.message (.unknownDestination para_id)
      ≠ RelayError.message .hopLimitExceeded := by
  intro h
  have hlen := congrArg String.length h
  rw [RelayError.message, RelayError.message, string_length_append,
    string_length_append] at hlen
  have h1 : ("destination parachain " : String).length = 22 := rfl
  have h2 : (" not found" : String).length = 10 := rfl
  have h3 : ("maximum hop count exceeded" : String).length = 26 := rfl
  rw [h1, h2, h3] at hlen
  omega

/-- Claim C10: in the snapshot processor, `MAX_HOPS` is 3 while
`process_single_message` always computes the two-element hop path
`[sender, dest]`, so it never returns `HopLimitExceeded` and the relay
loop never writes the `Failed "maximum hop count exceeded"` status for
any queued message. -/
theorem claim_C10 :
    MAX_HOPS = 3
    ∧ (∀ state queued fresh_id,
        (process_single_message state queued fresh_id).1
          ≠ Except.error RelayError.hopLimitExceeded)
    ∧ (∀ state queued fresh_id,
        run_relay_new_status state queued fresh_id
          ≠ MessageStatus.failed "maximum hop count exceeded") := by
  have hproc : ∀ (state : ServiceState) (queued : QueuedMessage) fresh_id,
      (process_single_message state queued fresh_id).1
        ≠ Except.error RelayError.hopLimitExceeded := by
    intro state queued fresh_id
    unfold process_single_message
    simp only [List.length_cons, List.length_nil, MAX_HOPS]
    rw [if_neg (by omega)]
    cases hm : mapLookup queued.envelope.dest_para state.parachains <;>
      simp [hm]
  refine ⟨rfl, hproc, ?_⟩
  intro state queued fresh_id
  unfold run_relay_new_status
  cases hr : (process_single_message state queued fresh_id).1 with
  | ok _ => simp
  | error e =>
    simp only []
    intro hcontra
    have hmsg : RelayError.message e = "maximum hop count exceeded" := by
      simpa using hcontra
    cases e with
    | unknownDestination para_id =>
      exact unknownDestination_message_ne_hopLimit para_id hmsg
    | statePoisoned => simp [RelayError.message] at hmsg
    | hopLimitExceeded => exact hproc state queued fresh_id (by rw [hr])

end XcmLite
